import Mathlib

/-!
Verification of the numerical core of the NADpools repository.

The repository is a collection of Python analysis scripts; the mathematically
meaningful functions are shallowly embedded here.  Real-valued float
computations are modelled over the real numbers; float quantities that are
only compared or formatted (times, p-values, raw intensities) are modelled
over the rationals so the embedded functions stay executable.
-/

open Filter Topology

/-- Embeds `exponential_decay` from turnover_calculation/new_utils.py:
`a * np.exp(-b * x)`. -/
noncomputable def exponential_decay (x a b : ℝ) : ℝ :=
  a * Real.exp (-b * x)

/-- Embeds `func_exp_decay` from scripts/half_life_estimation.py:
`prefactor * np.exp(-exp_factor * x)`. -/
noncomputable def func_exp_decay (x prefactor exp_factor : ℝ) : ℝ :=
  prefactor * Real.exp (-exp_factor * x)

/-- Embeds `calculate_standard_error` from new_utils.py:
`np.sqrt(np.diag(pcov))`, the vector of square roots of the diagonal of the
2x2 covariance matrix. -/
noncomputable def calculate_standard_error (pcov : Fin 2 → Fin 2 → ℝ) : Fin 2 → ℝ :=
  fun i => Real.sqrt (pcov i i)

/-- Embeds `half_life` from turnover_calculation/new_utils.py: given the fitted
pair `popt = (a, b)` and covariance matrix `pcov`, returns
`(np.log(2) / popt[1], half_life * sqrt((std_err[1]/popt[1])**2))`. -/
noncomputable def half_life (popt : ℝ × ℝ) (pcov : Fin 2 → Fin 2 → ℝ) : ℝ × ℝ :=
  let hl := Real.log 2 / popt.2
  let hl_error := hl * Real.sqrt ((calculate_standard_error pcov 1 / popt.2) ^ 2)
  (hl, hl_error)

/-- Embeds `calc_half_life` from scripts/half_life_estimation.py:
`np.log(2 * prefactor) / exp_factor`. -/
noncomputable def calc_half_life (prefactor exp_factor : ℝ) : ℝ :=
  Real.log (2 * prefactor) / exp_factor

/-- The half-life convention stated by the spec: `ln(2*a)/b` with the
prefactor inside the logarithm.  Written from the words of the spec, to be
compared with the two source functions. -/
noncomputable def half_life_spec_formula (a b : ℝ) : ℝ :=
  Real.log (2 * a) / b

/-- Embeds `calc_half_life_standard_deviation` from
scripts/half_life_estimation.py: error propagation for the half-life from the
2x2 covariance matrix of the fit. -/
noncomputable def calc_half_life_standard_deviation
    (prefactor exp_factor : ℝ) (cov : Fin 2 → Fin 2 → ℝ) : ℝ :=
  let sd_prefactor := Real.sqrt (cov 0 0)
  let sd_exp_factor := Real.sqrt (cov 1 1)
  let prefac_term := (sd_prefactor / (prefactor * exp_factor)) ^ 2
  let exp_term := (Real.log (2 * prefactor) * sd_exp_factor / exp_factor ^ 2) ^ 2
  Real.sqrt (prefac_term + exp_term)

/-- Claim C1: the claim states that both `calc_half_life` and `half_life`
compute `ln(2*a)/b`.  This is false: `half_life` in new_utils.py computes
`ln(2)/b`, without the prefactor.  At the concrete fitted pair `(2, 1)` the
two functions disagree with the claimed formula. -/
theorem C1_counterexample :
    ¬ (calc_half_life 2 1 = half_life_spec_formula 2 1 ∧
        (half_life (2, 1) (fun _ _ => 0)).1 = half_life_spec_formula 2 1) := by
  rintro ⟨-, h⟩
  simp only [half_life, half_life_spec_formula, calculate_standard_error] at h
  norm_num at h
  have h24 : Real.log 2 < Real.log 4 := Real.log_lt_log (by norm_num) (by norm_num)
  exact absurd h (ne_of_lt h24)

/-- Claim C1 (amended): for every prefactor `a` and exponential factor `b`
(with `b` nonzero), `calc_half_life` in half_life_estimation.py computes
`ln(2*a)/b` (the prefactor inside the logarithm, as the spec states), while
`half_life` in new_utils.py computes `ln(2)/b` with no prefactor inside the
logarithm. -/
theorem C1_half_life_formulas (a b : ℝ) (hb : b ≠ 0) (pcov : Fin 2 → Fin 2 → ℝ) :
    calc_half_life a b = half_life_spec_formula a b ∧
    (half_life (a, b) pcov).1 = Real.log 2 / b :=
  ⟨rfl, rfl⟩

/-- Witness for C1 at the concrete input `a = 3`, `b = 1`. -/
theorem C1_half_life_formulas_witness :
    (1 : ℝ) ≠ 0 ∧
    (calc_half_life 3 1 = half_life_spec_formula 3 1 ∧
      (half_life (3, 1) (fun _ _ => 0)).1 = Real.log 2 / 1) :=
  ⟨one_ne_zero, C1_half_life_formulas 3 1 one_ne_zero (fun _ _ => 0)⟩

/-- Claim C2: the claim states that evaluating the decay function at the
computed half-life yields half the amplitude for both half-life computations.
This fails for `calc_half_life`: at the fitted pair `(2, 1)` the decay
function evaluates to `1/2`, not `2/2 = 1`. -/
theorem C2_counterexample :
    ¬ (exponential_decay (half_life (2, 1) (fun _ _ => 0)).1 2 1 = 2 / 2 ∧
        func_exp_decay (calc_half_life 2 1) 2 1 = 2 / 2) := by
  rintro ⟨-, h⟩
  simp only [func_exp_decay, calc_half_life] at h
  rw [show ((2 : ℝ) * 2) = 4 by norm_num] at h
  rw [show (-(1 : ℝ) * (Real.log 4 / 1)) = -Real.log 4 by ring] at h
  rw [Real.exp_neg, Real.exp_log (by norm_num : (0 : ℝ) < 4)] at h
  norm_num at h

/-- Claim C2 (amended): for every `a > 0` and `b > 0`, the decay function
evaluated at the new_utils.py half-life `ln(2)/b` equals `a/2`, while
evaluated at `calc_half_life a b = ln(2*a)/b` it equals `1/2` (which is `a/2`
only when `a = 1`). -/
theorem C2_decay_at_half_life (a b : ℝ) (ha : 0 < a) (hb : 0 < b)
    (pcov : Fin 2 → Fin 2 → ℝ) :
    exponential_decay (half_life (a, b) pcov).1 a b = a / 2 ∧
    func_exp_decay (calc_half_life a b) a b = 1 / 2 := by
  constructor
  · simp only [exponential_decay, half_life]
    rw [show (-b * (Real.log 2 / b)) = -Real.log 2 by field_simp; ring]
    rw [Real.exp_neg, Real.exp_log (by norm_num : (0 : ℝ) < 2)]
    ring
  · simp only [func_exp_decay, calc_half_life]
    rw [show (-b * (Real.log (2 * a) / b)) = -Real.log (2 * a) by field_simp; ring]
    rw [Real.exp_neg, Real.exp_log (by positivity)]
    field_simp
    ring

/-- Witness for C2 at the concrete input `a = 2`, `b = 1`. -/
theorem C2_decay_at_half_life_witness :
    (0 : ℝ) < 2 ∧ (0 : ℝ) < 1 ∧
    (exponential_decay (half_life (2, 1) (fun _ _ => 0)).1 2 1 = 2 / 2 ∧
      func_exp_decay (calc_half_life 2 1) 2 1 = 1 / 2) :=
  ⟨by norm_num, by norm_num,
    C2_decay_at_half_life 2 1 (by norm_num) (by norm_num) (fun _ _ => 0)⟩

/-- Claim C3: for fixed `a > 0` and `b > 0`, the propagated standard
deviation of the half-life tends to zero as the covariance matrix tends to
zero, and it equals zero at the zero matrix. -/
theorem C3_sd_vanishes (a b : ℝ) (ha : 0 < a) (hb : 0 < b) :
    Tendsto (fun cov : Fin 2 → Fin 2 → ℝ =>
        calc_half_life_standard_deviation a b cov) (nhds 0) (nhds 0) ∧
    calc_half_life_standard_deviation a b 0 = 0 := by
  have h0 : calc_half_life_standard_deviation a b 0 = 0 := by
    simp [calc_half_life_standard_deviation]
  refine ⟨?_, h0⟩
  have hc : Continuous (fun cov : Fin 2 → Fin 2 → ℝ =>
      calc_half_life_standard_deviation a b cov) := by
    simp only [calc_half_life_standard_deviation]
    apply Continuous.sqrt
    apply Continuous.add
    · exact ((((continuous_apply (0 : Fin 2)).comp
        (continuous_apply (0 : Fin 2))).sqrt).div_const _).pow 2
    · exact ((continuous_const.mul (((continuous_apply (1 : Fin 2)).comp
        (continuous_apply (1 : Fin 2))).sqrt)).div_const _).pow 2
  exact hc.tendsto' 0 0 h0

/-- Witness for C3 at the concrete input `a = 1`, `b = 1`. -/
theorem C3_sd_vanishes_witness :
    (0 : ℝ) < 1 ∧
    (Tendsto (fun cov : Fin 2 → Fin 2 → ℝ =>
        calc_half_life_standard_deviation 1 1 cov) (nhds 0) (nhds 0) ∧
      calc_half_life_standard_deviation 1 1 0 = 0) :=
  ⟨one_pos, C3_sd_vanishes 1 1 one_pos one_pos⟩

/-- Truncation toward zero, the behaviour of the `whole` part returned by
`math.modf` followed by `int(...)` in Python. -/
def pytrunc (q : ℚ) : ℤ :=
  if 0 ≤ q then ⌊q⌋ else ⌈q⌉

/-- The rounding of the Python builtin `round` on floats: round half to
even. -/
def pyround (q : ℚ) : ℤ :=
  let f := ⌊q⌋
  let r := q - (f : ℚ)
  if r < 1 / 2 then f
  else if 1 / 2 < r then f + 1
  else if f % 2 = 0 then f else f + 1

/-- Embeds `pretty_print_time`, identical in scripts/half_life_estimation.py
and turnover_calculation/new_utils.py.  Times (Python floats) are modelled as
rationals; `pytrunc time` is the integral part from `math.modf` and
`pyround (... * 60)` the rounded minutes. -/
def pretty_print_time (time : ℚ) : String :=
  if pytrunc time = 0 then
    toString (pyround ((time - (pytrunc time : ℚ)) * 60)) ++ "min"
  else if pytrunc time < 24 then
    toString (pytrunc time) ++ "h " ++
      toString (pyround ((time - (pytrunc time : ℚ)) * 60)) ++ "min"
  else
    toString (pytrunc time / 24) ++ "d " ++ toString (pytrunc time % 24) ++ "h " ++
      toString (pyround ((time - (pytrunc time : ℚ)) * 60)) ++ "min"

/-- The formatting described by the spec: floor semantics for the whole-hour
part and round semantics for the minutes.  Written from the words of the
spec, to be compared with the source function. -/
def pretty_time_floor_round (time : ℚ) : String :=
  if (⌊time⌋ : ℤ) = 0 then
    toString (pyround ((time - (⌊time⌋ : ℚ)) * 60)) ++ "min"
  else if (⌊time⌋ : ℤ) < 24 then
    toString (⌊time⌋ : ℤ) ++ "h " ++
      toString (pyround ((time - (⌊time⌋ : ℚ)) * 60)) ++ "min"
  else
    toString ((⌊time⌋ : ℤ) / 24) ++ "d " ++ toString ((⌊time⌋ : ℤ) % 24) ++ "h " ++
      toString (pyround ((time - (⌊time⌋ : ℚ)) * 60)) ++ "min"

/-- Claim C4: the claim states `pretty_print_time 0.999 = "59min"`.  This is
false: the fractional part gives `0.999 * 60 = 59.94` minutes, which rounds
to `60`, and the function prints the rounded minutes without carrying, so the
result is `"60min"`. -/
theorem C4_counterexample :
    ¬ (pretty_print_time (0.999 : ℚ) = "59min" ∧
        pretty_print_time 24 = "1d 0h 0min") := by
  rintro ⟨h, -⟩
  have h1 : pytrunc (0.999 : ℚ) = 0 := by unfold pytrunc; norm_num
  have h2 : pyround (((0.999 : ℚ) - ((0 : ℤ) : ℚ)) * 60) = 60 := by
    unfold pyround; norm_num
  unfold pretty_print_time at h
  rw [h1, h2] at h
  exact absurd h (by decide)

/-- Claim C4 (amended): `pretty_print_time` formats a time given in hours
using floor semantics for the whole-hour part (for non-negative times) and
round semantics for the minutes; in particular
`pretty_print_time 0.999 = "60min"` (the rounded minutes are not carried into
the hours field) and `pretty_print_time 24.0 = "1d 0h 0min"`. -/
theorem C4_pretty_print_time (t : ℚ) (ht : 0 ≤ t) :
    pretty_print_time t = pretty_time_floor_round t ∧
    pretty_print_time (0.999 : ℚ) = "60min" ∧
    pretty_print_time 24 = "1d 0h 0min" := by
  refine ⟨?_, ?_, ?_⟩
  · simp only [pretty_print_time, pretty_time_floor_round, pytrunc, if_pos ht]
  · have h1 : pytrunc (0.999 : ℚ) = 0 := by unfold pytrunc; norm_num
    have h2 : pyround (((0.999 : ℚ) - ((0 : ℤ) : ℚ)) * 60) = 60 := by
      unfold pyround; norm_num
    unfold pretty_print_time
    rw [h1, h2]
    decide
  · have h1 : pytrunc (24 : ℚ) = 24 := by unfold pytrunc; norm_num
    have h2 : pyround (((24 : ℚ) - ((24 : ℤ) : ℚ)) * 60) = 0 := by
      unfold pyround; norm_num
    unfold pretty_print_time
    rw [h1, h2]
    decide

/-- Witness for C4 at the concrete input `t = 0.999`. -/
theorem C4_pretty_print_time_witness :
    (0 : ℚ) ≤ 0.999 ∧
    (pretty_print_time (0.999 : ℚ) = pretty_time_floor_round (0.999 : ℚ) ∧
      pretty_print_time (0.999 : ℚ) = "60min" ∧
      pretty_print_time 24 = "1d 0h 0min") :=
  ⟨by norm_num, C4_pretty_print_time (0.999 : ℚ) (by norm_num)⟩

/-- Claim C10: for every non-negative time whose fractional part rounds up to
a full hour, `pretty_print_time` reports a minutes component of `60` rather
than normalising it into the next hour: the output always ends in `"60min"`. -/
theorem C10_minutes_not_carried (t : ℚ) (ht : 0 ≤ t)
    (hr : pyround ((t - (pytrunc t : ℚ)) * 60) = 60) :
    ∃ p : String, pretty_print_time t = p ++ "60min" := by
  have h60 : toString (60 : ℤ) ++ "min" = "60min" := by decide
  unfold pretty_print_time
  rw [hr]
  by_cases h0 : pytrunc t = 0
  · refine ⟨"", ?_⟩
    rw [if_pos h0, h60]
    decide
  · by_cases h24 : pytrunc t < 24
    · refine ⟨toString (pytrunc t) ++ "h ", ?_⟩
      rw [if_neg h0, if_pos h24, String.append_assoc, h60]
    · refine ⟨toString (pytrunc t / 24) ++ "d " ++ toString (pytrunc t % 24) ++ "h ", ?_⟩
      rw [if_neg h0, if_neg h24, String.append_assoc, h60]

/-- Witness for C10 at the concrete input `t = 0.999`. -/
theorem C10_minutes_not_carried_witness :
    (0 : ℚ) ≤ 0.999 ∧
    pyround (((0.999 : ℚ) - (pytrunc (0.999 : ℚ) : ℚ)) * 60) = 60 ∧
    ∃ p : String, pretty_print_time (0.999 : ℚ) = p ++ "60min" := by
  have h1 : pytrunc (0.999 : ℚ) = 0 := by unfold pytrunc; norm_num
  have hr : pyround (((0.999 : ℚ) - (pytrunc (0.999 : ℚ) : ℚ)) * 60) = 60 := by
    rw [h1]; unfold pyround; norm_num
  exact ⟨by norm_num, hr, C10_minutes_not_carried (0.999 : ℚ) (by norm_num) hr⟩

/-- Embeds `calc_turnover_cell` from scripts/half_life_estimation.py: the NAD
amount after one hour under the fitted decay is subtracted from the total
cell NAD amount. -/
noncomputable def calc_turnover_cell (prefactor exp_factor nad_amount_cell : ℝ) : ℝ :=
  nad_amount_cell - func_exp_decay 1 prefactor exp_factor * nad_amount_cell

/-- Embeds the per-cell computation of `get_turnover` from
turnover_calculation/new_utils.py: from the half-life, its error, the pool
size and its standard deviation (and optionally the growth rate and its
standard error), the pair of turnover and propagated turnover error that the
function writes into the `turnover` and `turnover_error` columns. -/
noncomputable def get_turnover (hl hle poolsize poolsize_error : ℝ)
    (growth : Option (ℝ × ℝ)) : ℝ × ℝ :=
  let turnover := (poolsize / 2) / hl
  let turnover_error :=
    match growth with
    | some (gr, gre) =>
      turnover * Real.sqrt ((poolsize_error / poolsize) ^ 2 + (hle / hl) ^ 2 +
        (gre / gr) ^ 2)
    | none =>
      turnover * Real.sqrt ((poolsize_error / poolsize) ^ 2 + (hle / hl) ^ 2)
  (turnover, turnover_error)

/-- Claim C6: `get_turnover` sets the turnover to `(poolsize / 2) / half_life`
(pool size and half-life alone), and `calc_turnover_cell` computes the cell
turnover from the pool size and the fitted decay, as the amount replaced
after one hour: `nad_amount_cell - func_exp_decay 1 a b * nad_amount_cell`,
which equals `nad_amount_cell * (1 - a * exp (-b))`. -/
theorem C6_turnover (hl hle poolsize poolsize_error a b nad_amount_cell : ℝ)
    (growth : Option (ℝ × ℝ)) :
    (get_turnover hl hle poolsize poolsize_error growth).1 = (poolsize / 2) / hl ∧
    calc_turnover_cell a b nad_amount_cell =
      nad_amount_cell - func_exp_decay 1 a b * nad_amount_cell ∧
    calc_turnover_cell a b nad_amount_cell =
      nad_amount_cell * (1 - a * Real.exp (-b)) := by
  refine ⟨rfl, rfl, ?_⟩
  simp only [calc_turnover_cell, func_exp_decay, mul_one]
  ring

/-- Mean of a list of values, embedding `pandas.DataFrame.mean(axis=1)` on
the three replicate columns of one row. -/
noncomputable def listMean (xs : List ℝ) : ℝ :=
  xs.sum / (xs.length : ℝ)

/-- One row of the proteomics comparison in
proteomics_analyses/calculate_fold_changes_p001.py: a protein accession, the
abundance-ratio replicate values of the two compared conditions, and the
p-value of the t-test between them (the p-value, a float that is only
compared against the cutoff, is modelled as a rational). -/
structure CompRow where
  protein : String
  vals1 : List ℝ
  vals2 : List ℝ
  pval : ℚ

/-- Embeds the comparison loop of calculate_fold_changes_p001.py for one pair
of conditions: each row receives `log2(mean(cat1) / mean(cat2))` as its fold
change, and only rows with p-value strictly below the cutoff `0.001` are
kept. -/
noncomputable def comparison_entries (rows : List CompRow) : List (String × ℝ × ℚ) :=
  (rows.map fun r =>
    (r.protein, Real.logb 2 (listMean r.vals1 / listMean r.vals2), r.pval)).filter
    fun e => decide (e.2.2 < 1 / 1000)

/-- Claim C7: every entry of the comparison table has its t-test p-value
strictly below the cutoff `0.001`, and its recorded fold change is the base-2
logarithm of the ratio of the replicate means of the two conditions. -/
theorem C7_fold_changes (rows : List CompRow) (e : String × ℝ × ℚ)
    (he : e ∈ comparison_entries rows) :
    e.2.2 < 1 / 1000 ∧
    ∃ r, r ∈ rows ∧
      e = (r.protein, Real.logb 2 (listMean r.vals1 / listMean r.vals2), r.pval) := by
  unfold comparison_entries at he
  rw [List.mem_filter] at he
  obtain ⟨hmem, hp⟩ := he
  rw [List.mem_map] at hmem
  obtain ⟨r, hr, hre⟩ := hmem
  refine ⟨by simpa using hp, r, hr, hre.symm⟩

/-- Witness for C7: a single-row table whose p-value `0.0005` passes the
cutoff. -/
theorem C7_fold_changes_witness :
    (("P1", Real.logb 2 (listMean [2, 2] / listMean [1, 1]), (1 / 2000 : ℚ)) ∈
        comparison_entries [⟨"P1", [2, 2], [1, 1], 1 / 2000⟩]) ∧
    ((1 / 2000 : ℚ) < 1 / 1000 ∧
      ∃ r, r ∈ [(⟨"P1", [2, 2], [1, 1], 1 / 2000⟩ : CompRow)] ∧
        ("P1", Real.logb 2 (listMean [2, 2] / listMean [1, 1]), (1 / 2000 : ℚ)) =
          (r.protein, Real.logb 2 (listMean r.vals1 / listMean r.vals2), r.pval)) := by
  have hmem : ("P1", Real.logb 2 (listMean [2, 2] / listMean [1, 1]),
      (1 / 2000 : ℚ)) ∈ comparison_entries [⟨"P1", [2, 2], [1, 1], 1 / 2000⟩] := by
    unfold comparison_entries
    rw [List.mem_filter]
    refine ⟨by simp, by norm_num⟩
  exact ⟨hmem, C7_fold_changes _ _ hmem⟩

/-- The exception types explicitly raised by functions of this repository. -/
inductive PyExc where
  | valueError
  | keyError
  | typeError
  | notImplementedError
deriving DecidableEq

/-- All explicit raise statements in the repository sources, one entry per
raise site (file and line), with the exception type raised. -/
def repo_raise_sites : List (String × PyExc) :=
  [("scripts/half_life_estimation.py:559 calc_half_life_table", PyExc.typeError),
   ("scripts/half_life_estimation.py:565 calc_half_life_table", PyExc.notImplementedError),
   ("scripts/half_life_estimation.py:632 calc_half_life_table", PyExc.valueError),
   ("scripts/simulation_parsing_plotting.py:87 plot_isolates_enzymes", PyExc.valueError),
   ("scripts/simulation_parsing_plotting.py:165 plot_3ab_flux", PyExc.valueError),
   ("python_scripts/plot_function.py:87", PyExc.valueError),
   ("python_scripts/plot_function.py:132", PyExc.valueError),
   ("python_scripts/plot_function.py:253", PyExc.notImplementedError),
   ("python_scripts/plot_function.py:292", PyExc.notImplementedError),
   ("python_scripts/plot_function.py:315", PyExc.notImplementedError),
   ("python_scripts/plot_function.py:338", PyExc.notImplementedError),
   ("python_scripts/plot_function.py:362", PyExc.notImplementedError),
   ("python_scripts/plot_function.py:385", PyExc.valueError),
   ("python_scripts/plot_function.py:467", PyExc.notImplementedError),
   ("python_scripts/plot_function.py:493", PyExc.notImplementedError),
   ("python_scripts/plot_function.py:513", PyExc.valueError),
   ("python_scripts/plot_function.py:600", PyExc.valueError),
   ("python_scripts/plot_function.py:620", PyExc.notImplementedError),
   ("python_scripts/plot_function.py:631", PyExc.valueError),
   ("python_scripts/plot_function.py:850", PyExc.valueError),
   ("python_scripts/plot_function.py:939", PyExc.valueError),
   ("python_scripts/plot_function.py:1033", PyExc.valueError),
   ("python_scripts/plot_function.py:1046", PyExc.valueError),
   ("python_scripts/plot_function.py:1138", PyExc.valueError),
   ("python_scripts/plot_function.py:1154", PyExc.valueError),
   ("python_scripts/convert_csv.py:125 analyse_rawfiles", PyExc.valueError)]

/-- Claim C8: the claim states that every exception raised by the repository
is a ValueError or a KeyError.  This is false: `calc_half_life_table` in
scripts/half_life_estimation.py raises a TypeError (line 559) and a
NotImplementedError (line 565). -/
theorem C8_counterexample :
    ¬ (∀ s ∈ repo_raise_sites,
        s.2 = PyExc.valueError ∨ s.2 = PyExc.keyError) := by
  intro h
  have := h ("scripts/half_life_estimation.py:559 calc_half_life_table",
    PyExc.typeError) (by decide)
  simpa using this

/-- Claim C8 (amended): every exception raised explicitly by the repository
sources is an ad hoc ValueError, TypeError or NotImplementedError raise
inside an individual function; no KeyError is raised (KeyError and ValueError
are only caught). -/
theorem C8_raised_exceptions (s : String × PyExc) (hs : s ∈ repo_raise_sites) :
    s.2 = PyExc.valueError ∨ s.2 = PyExc.typeError ∨
      s.2 = PyExc.notImplementedError := by
  have h : ∀ x ∈ repo_raise_sites,
      x.2 = PyExc.valueError ∨ x.2 = PyExc.typeError ∨
        x.2 = PyExc.notImplementedError := by decide
  exact h s hs

/-- Witness for C8 at the concrete raise site in convert_csv.py. -/
theorem C8_raised_exceptions_witness :
    (("python_scripts/convert_csv.py:125 analyse_rawfiles", PyExc.valueError) ∈
        repo_raise_sites) ∧
    (PyExc.valueError = PyExc.valueError ∨ PyExc.valueError = PyExc.typeError ∨
      PyExc.valueError = PyExc.notImplementedError) :=
  ⟨by decide, C8_raised_exceptions
    ("python_scripts/convert_csv.py:125 analyse_rawfiles", PyExc.valueError)
    (by decide)⟩

/-- Embeds the percentage computation of `analyse_rawfiles` in
python_scripts/convert_csv.py for one row: `sum_labelled` is the sum of the
five labelled isotopologue columns, and the two percent columns divide by
`No label + sum_labelled` and multiply by 100.  Intensities are exact values,
so they are modelled as rationals.  Returns
`(sum_labelled, no_label_percent, sum_labelled_percent)`. -/
def analyse_rawfiles_percents (noLabel n15 c13x5 c13n15x5 c13x10 c13n15x10 : ℚ) :
    ℚ × ℚ × ℚ :=
  let sum_labelled := n15 + c13x5 + c13n15x5 + c13x10 + c13n15x10
  let no_label_percent := noLabel / (noLabel + sum_labelled) * 100
  let sum_labelled_percent := sum_labelled / (noLabel + sum_labelled) * 100
  (sum_labelled, no_label_percent, sum_labelled_percent)

/-- Embeds the percentage computation of `analyse_metabolites` in
python_scripts/convert_csv.py for one row of one metabolite: the unlabelled
percent divides by `unlabelled + labelled` and multiplies by 100, and the
labelled percent is its complement to 100.  Returns
`(unlabelled_percent, labelled_percent)`. -/
def analyse_metabolites_percents (unlabelled labelled : ℚ) : ℚ × ℚ :=
  let unlabelled_per := unlabelled / (unlabelled + labelled) * 100
  let labelled_per := 100 - unlabelled_per
  (unlabelled_per, labelled_per)

/-- Claim C9: whenever `No label + sum_labelled` is nonzero, the two percent
columns computed by `analyse_rawfiles` sum to exactly 100; and the
unlabelled- and labelled-percent columns computed by `analyse_metabolites`
sum to exactly 100 in every row (the labelled percent is defined as the
complement to 100, so no hypothesis is needed there). -/
theorem C9_percent_sums (noLabel n15 c13x5 c13n15x5 c13x10 c13n15x10 u l : ℚ)
    (h : noLabel + (n15 + c13x5 + c13n15x5 + c13x10 + c13n15x10) ≠ 0) :
    (analyse_rawfiles_percents noLabel n15 c13x5 c13n15x5 c13x10 c13n15x10).2.1 +
      (analyse_rawfiles_percents noLabel n15 c13x5 c13n15x5 c13x10 c13n15x10).2.2
        = 100 ∧
    (analyse_metabolites_percents u l).1 + (analyse_metabolites_percents u l).2
      = 100 := by
  constructor
  · simp only [analyse_rawfiles_percents]
    field_simp
    ring
  · simp only [analyse_metabolites_percents]
    ring

/-- Witness for C9 at concrete intensities. -/
theorem C9_percent_sums_witness :
    ((3 : ℚ) + (1 + 2 + 4 + 5 + 6) ≠ 0) ∧
    ((analyse_rawfiles_percents 3 1 2 4 5 6).2.1 +
        (analyse_rawfiles_percents 3 1 2 4 5 6).2.2 = 100 ∧
      (analyse_metabolites_percents 7 9).1 + (analyse_metabolites_percents 7 9).2
        = 100) :=
  ⟨by norm_num, C9_percent_sums 3 1 2 4 5 6 7 9 (by norm_num)⟩
